import Mathlib

/-!
# Verification of the request deduplication and idempotency coordinator

Shallow embedding of the magnus-jm webhook proxy subsystem: the SQL helper
functions (`generate_request_fingerprint`, `acquire_session_lock`,
`release_session_lock`, `check_recent_duplicate_request`,
`cleanup_stale_processing_requests`, …), the `webhook_requests` ledger table
with its uniqueness constraints, the client-side idempotency-key generation,
the Downstream Executor retry loop, and the two Deno edge-function handlers
(the minimal single-layer proxy and the multi-layer coordinator).

Conventions:
* wall-clock instants are natural numbers of milliseconds since the Unix
  epoch (matching JavaScript `Date.now()`); SQL timestamps are converted
  where the source converts;
* SHA-256 (pgcrypto `digest(·,'sha256')` and Web Crypto
  `crypto.subtle.digest('SHA-256',·)`) is implemented executably below so
  concrete digests can be evaluated by the kernel;
* PostgreSQL errors are surfaced as `Except` values; a raised error aborts
  the whole SQL statement, so callers keep the pre-call table state.
-/

set_option maxRecDepth 100000

deriving instance DecidableEq for Except

/-! ## SHA-256, executable (FIPS 180-4), on `Nat` words reduced mod 2^32 -/

/-- Truncate to a 32-bit word. -/
def w32 (x : Nat) : Nat := x % 4294967296

/-- Right rotation of a 32-bit word. -/
def rotr (n x : Nat) : Nat := w32 ((x >>> n) ||| (x <<< (32 - n)))

/-- SHA-256 small sigma 0. -/
def ssig0 (x : Nat) : Nat := (rotr 7 x) ^^^ (rotr 18 x) ^^^ (x >>> 3)

/-- SHA-256 small sigma 1. -/
def ssig1 (x : Nat) : Nat := (rotr 17 x) ^^^ (rotr 19 x) ^^^ (x >>> 10)

/-- SHA-256 big Sigma 0. -/
def bsig0 (x : Nat) : Nat := (rotr 2 x) ^^^ (rotr 13 x) ^^^ (rotr 22 x)

/-- SHA-256 big Sigma 1. -/
def bsig1 (x : Nat) : Nat := (rotr 6 x) ^^^ (rotr 11 x) ^^^ (rotr 25 x)

/-- SHA-256 choose function. -/
def chF (x y z : Nat) : Nat := (x &&& y) ^^^ ((x ^^^ 4294967295) &&& z)

/-- SHA-256 majority function. -/
def majF (x y z : Nat) : Nat := (x &&& y) ^^^ (x &&& z) ^^^ (y &&& z)

/-- The 64 SHA-256 round constants (FIPS 180-4 §4.2.2, written in decimal). -/
def sha256K : List Nat :=
  [1116352408, 1899447441, 3049323471, 3921009573, 961987163, 1508970993,
   2453635748, 2870763221, 3624381080, 310598401, 607225278, 1426881987,
   1925078388, 2162078206, 2614888103, 3248222580, 3835390401, 4022224774,
   264347078, 604807628, 770255983, 1249150122, 1555081692, 1996064986,
   2554220882, 2821834349, 2952996808, 3210313671, 3336571891, 3584528711,
   113926993, 338241895, 666307205, 773529912, 1294757372, 1396182291,
   1695183700, 1986661051, 2177026350, 2456956037, 2730485921, 2820302411,
   3259730800, 3345764771, 3516065817, 3600352804, 4094571909, 275423344,
   430227734, 506948616, 659060556, 883997877, 958139571, 1322822218,
   1537002063, 1747873779, 1955562222, 2024104815, 2227730452, 2361852424,
   2428436474, 2756734187, 3204031479, 3329325298]

/-- SHA-256 initial hash state (FIPS 180-4 §5.3.3, written in decimal). -/
def sha256Init : List Nat :=
  [1779033703, 3144134277, 1013904242, 2773480762, 1359893119, 2600822924,
   528734635, 1541459225]

/-- Big-endian bytes of `n`, `k` bytes wide. -/
def beBytes (k n : Nat) : List Nat :=
  (List.range k).map (fun i => (n >>> (8 * (k - 1 - i))) % 256)

/-- Group a byte list into big-endian 32-bit words (length must be a multiple of 4). -/
def bytesToWords : List Nat → List Nat
  | b0 :: b1 :: b2 :: b3 :: rest =>
      ((b0 <<< 24) ||| (b1 <<< 16) ||| (b2 <<< 8) ||| b3) :: bytesToWords rest
  | _ => []

/-- Extend a 16-word block schedule by `k` further words. -/
def extendSchedule : List Nat → Nat → List Nat
  | ws, 0 => ws
  | ws, k + 1 =>
      let n := ws.length
      let nw := w32 (ws.getD (n - 16) 0 + ssig0 (ws.getD (n - 15) 0) +
                     ws.getD (n - 7) 0 + ssig1 (ws.getD (n - 2) 0))
      extendSchedule (ws ++ [nw]) k

/-- One SHA-256 round on an 8-word working state. -/
def sha256Round (st : List Nat) (kw : Nat × Nat) : List Nat :=
  match st with
  | [a, b, c, d, e, f, g, h] =>
      let t1 := w32 (h + bsig1 e + chF e f g + kw.1 + kw.2)
      let t2 := w32 (bsig0 a + majF a b c)
      [w32 (t1 + t2), a, b, c, w32 (d + t1), e, f, g]
  | st => st

/-- Compress one 64-byte block into the hash state. -/
def sha256Compress (hs : List Nat) (block : List Nat) : List Nat :=
  let ws := extendSchedule (bytesToWords block) 48
  let fin := (sha256K.zip ws).foldl sha256Round hs
  (hs.zip fin).map (fun p => w32 (p.1 + p.2))

/-- Split a byte list into 64-byte blocks (structural fuel recursion so the
kernel can evaluate it; `fuel = bs.length` always suffices). -/
def toBlocksF : Nat → List Nat → List (List Nat)
  | 0, _ => []
  | _, [] => []
  | fuel + 1, bs => bs.take 64 :: toBlocksF fuel (bs.drop 64)

/-- Split a byte list into 64-byte blocks. -/
def toBlocks (bs : List Nat) : List (List Nat) := toBlocksF bs.length bs

/-- SHA-256 padding: append 0x80, zeros, and the 8-byte big-endian bit length. -/
def sha256Pad (bs : List Nat) : List Nat :=
  let len := bs.length
  let zeros := (119 - len % 64) % 64
  bs ++ [0x80] ++ List.replicate zeros 0 ++ beBytes 8 (8 * len)

/-- SHA-256 of a byte list, as a list of eight 32-bit words. -/
def sha256Words (bs : List Nat) : List Nat :=
  (toBlocks (sha256Pad bs)).foldl sha256Compress sha256Init

/-- UTF-8 encoding of one character (code point) as bytes. -/
def utf8Char (c : Char) : List Nat :=
  let n := c.toNat
  if n < 0x80 then [n]
  else if n < 0x800 then [0xC0 ||| (n >>> 6), 0x80 ||| (n % 64)]
  else if n < 0x10000 then
    [0xE0 ||| (n >>> 12), 0x80 ||| ((n >>> 6) % 64), 0x80 ||| (n % 64)]
  else
    [0xF0 ||| (n >>> 18), 0x80 ||| ((n >>> 12) % 64), 0x80 ||| ((n >>> 6) % 64), 0x80 ||| (n % 64)]

/-- UTF-8 bytes of a string. -/
def utf8Bytes (s : String) : List Nat := (s.data.map utf8Char).flatten

/-- Lowercase hex rendering of one 32-bit word (8 nibbles). -/
def hexWord (x : Nat) : List Char :=
  (List.range 8).map (fun i => Nat.digitChar ((x >>> (4 * (7 - i))) % 16))

/-- Lowercase hex SHA-256 digest of a string: the common primitive behind
pgcrypto's `encode(digest(s,'sha256'),'hex')` and the JS
`crypto.subtle.digest('SHA-256',·)` + hex-mapping used by the client. -/
def sha256hex (s : String) : String :=
  String.mk (((sha256Words (utf8Bytes s)).map hexWord).flatten)

example : sha256hex "hello" = "2cf24dba5fb0a30e26e83b2ac5b9e29e1b161e5c1fa7425e73043362938b9824" := by decide

/-! ## PostgreSQL timestamp rendering

`generate_request_fingerprint` renders `time_bucket::text`, a `timestamptz`
shown in UTC as `YYYY-MM-DD HH:MM:SS+00` (Supabase runs with `TimeZone =
'UTC'`).  We implement the proleptic-Gregorian conversion from a day count
(civil-from-days) and the fixed-width rendering. -/

/-- Two-decimal-digit zero-padded rendering. -/
def pad2 (n : Nat) : List Char := [Nat.digitChar (n / 10 % 10), Nat.digitChar (n % 10)]

/-- Four-decimal-digit zero-padded rendering. -/
def pad4 (n : Nat) : List Char :=
  [Nat.digitChar (n / 1000 % 10), Nat.digitChar (n / 100 % 10),
   Nat.digitChar (n / 10 % 10), Nat.digitChar (n % 10)]

/-- Gregorian `(year, month, day)` of a day count since 1970-01-01
(valid for any nonnegative day count). -/
def civilFromDays (days : Nat) : Nat × Nat × Nat :=
  let z := days + 719468
  let era := z / 146097
  let doe := z % 146097
  let yoe := (doe - doe / 1460 + doe / 36524 - doe / 146096) / 365
  let y := yoe + era * 400
  let doy := doe - (365 * yoe + yoe / 4 - yoe / 100)
  let mp := (5 * doy + 2) / 153
  let d := doy - (153 * mp + 2) / 5 + 1
  let m := if mp < 10 then mp + 3 else mp - 9
  (if m ≤ 2 then y + 1 else y, m, d)

/-- `timestamptz::text` at UTC for a whole-second epoch instant:
`"YYYY-MM-DD HH:MM:SS+00"`. -/
def pgTimestampText (t : Nat) : String :=
  let days := t / 86400
  let secs := t % 86400
  let ymd := civilFromDays days
  String.mk (pad4 ymd.1 ++ '-' :: pad2 ymd.2.1 ++ '-' :: pad2 ymd.2.2 ++
             ' ' :: pad2 (secs / 3600) ++ ':' :: pad2 (secs / 60 % 60) ++
             ':' :: pad2 (secs % 60) ++ ['+', '0', '0'])

example : pgTimestampText 1752057000 = "2025-07-09 10:30:00+00" := by decide
example : pgTimestampText 0 = "1970-01-01 00:00:00+00" := by decide

/-! ## Fingerprint Generator (SQL) and client idempotency key (JS)

Server side, `public.generate_request_fingerprint` (final 90-second-default
version of `20250709000001-comprehensive-duplicate-fix.sql`):

```
time_bucket := date_trunc('second', now()) -
  ((EXTRACT(epoch FROM now())::INTEGER % p_time_window_seconds) * INTERVAL '1 second');
fingerprint_data := p_session_id::text || '|' || p_message_content || '|' || time_bucket::text;
RETURN encode(digest(fingerprint_data, 'sha256'), 'hex');
```

`date_trunc` *truncates* `now()` to the second, while the `::INTEGER` cast of
the numeric epoch *rounds to the nearest integer*; for a sub-second fraction
≥ 0.5 the two disagree.  With `nowMs` in milliseconds: truncation is
`nowMs / 1000` and the rounded cast is `(nowMs + 500) / 1000`.

Client side, `generateIdempotencyKey` of `src/services/chatService.ts` (the
identical inline computation appears in `useChat.ts`):

```
const timeBucket = Math.floor(Date.now() / (1000 * 60 * 90)); // 90-minute buckets
const keyData = `${sessionId}|${content.trim()}|${timeBucket}`;
...SHA-256 hex of keyData...
```
-/

/-- JavaScript `String.prototype.trim()`: strip leading and trailing
whitespace (kernel-computable replacement for `String.trim`). -/
def jsTrim (s : String) : String :=
  String.mk (((s.data.dropWhile Char.isWhitespace).reverse.dropWhile Char.isWhitespace).reverse)

/-- The bucket timestamp computed by `generate_request_fingerprint` at wall
clock `nowMs` (milliseconds), in epoch seconds:
`date_trunc('second', now()) - (EXTRACT(epoch FROM now())::INTEGER % w)`. -/
def pgBucketEpoch (w nowMs : Nat) : Nat :=
  nowMs / 1000 - ((nowMs + 500) / 1000) % w

/-- The `fingerprint_data` pre-image string hashed by
`generate_request_fingerprint`. -/
def pgFingerprintData (sessionId content : String) (w nowMs : Nat) : String :=
  sessionId ++ "|" ++ content ++ "|" ++ pgTimestampText (pgBucketEpoch w nowMs)

/-- `public.generate_request_fingerprint(p_session_id, p_message_content,
p_time_window_seconds)` evaluated at wall clock `nowMs`. -/
def generate_request_fingerprint (sessionId content : String) (w nowMs : Nat) : String :=
  sha256hex (pgFingerprintData sessionId content w nowMs)

/-- The `keyData` pre-image string hashed by the client's
`generateIdempotencyKey` (and by the `messageHash` computation in
`useChat.ts`): 90-minute integer bucket index, rendered in decimal. -/
def clientKeyData (content sessionId : String) (nowMs : Nat) : String :=
  sessionId ++ "|" ++ jsTrim content ++ "|" ++ Nat.repr (nowMs / 5400000)

/-- `generateIdempotencyKey(content, sessionId)` of `chatService.ts`
evaluated at wall clock `nowMs`. -/
def generateIdempotencyKey (content sessionId : String) (nowMs : Nat) : String :=
  sha256hex (clientKeyData content sessionId nowMs)

/-- A sample session UUID used for concrete evaluations. -/
def sampleSession : String := "550e8400-e29b-41d4-a716-446655440000"

example : generate_request_fingerprint sampleSession "hello" 90 1752057010000 =
    "f894e6f7913d70659610b2b293a6ee0ac70bfd36799849f19c7b5f58cb431e3d" := by decide

example : generateIdempotencyKey "hello" sampleSession 1752057010000 =
    "50c5d4f66cd323a05fd6656ab4d7131bdbd72c8b18caee26623d453415809be5" := by decide

/-! ## Lease Manager: `session_locks` and its SQL functions

`public.session_locks` has `PRIMARY KEY (session_id, message_hash)`.

Both `acquire_session_lock` (takeover branch) and `release_session_lock`
contain the SQL predicate `AND message_hash = message_hash` inside a function
that also *declares a plpgsql variable* named `message_hash`.  An identifier
that could refer both to a plpgsql variable and to a column of the statement's
table is rejected by PostgreSQL at run time with SQLSTATE 42702 ("column
reference is ambiguous") under the default `plpgsql.variable_conflict = error`
policy — nothing in the repository overrides that default for these functions
(the repository's own `match_documents` sets `#variable_conflict use_column`
explicitly, these two do not).  An uncaught error aborts the whole statement,
rolling back all of the function's effects. -/

/-- PostgreSQL error outcomes distinguished by the embedded code. -/
inductive PgError
  | uniqueViolation      -- SQLSTATE 23505
  | notNullViolation     -- SQLSTATE 23502
  | ambiguousColumn      -- SQLSTATE 42702
deriving DecidableEq, Repr

/-- A row of `public.session_locks`. -/
structure LockRow where
  session_id : String
  message_hash : String
  locked_by : String
  locked_at : Nat
  expires_at : Nat
deriving DecidableEq, Repr

/-- `public.acquire_session_lock(p_session_id, p_message_content, p_locked_by,
p_lock_duration_seconds)` (final version, migration `20250109130000` /
"Final Security Fixes"): computes `message_hash := sha256(content)`, deletes
expired locks, then inserts the new lock row.  On a `unique_violation` the
handler runs the takeover `UPDATE ... WHERE session_id = p_session_id AND
message_hash = message_hash AND expires_at < now()`; that statement's
`message_hash` is ambiguous (variable vs column), so the call raises 42702
and every effect (including the sweep) is rolled back. -/
def acquire_session_lock (tbl : List LockRow)
    (p_session_id p_message_content p_locked_by : String)
    (p_lock_duration_seconds nowMs : Nat) : Except PgError (Bool × List LockRow) :=
  let message_hash := sha256hex p_message_content
  let cleaned := tbl.filter (fun r => decide (¬ r.expires_at < nowMs))
  if cleaned.any (fun r => decide (r.session_id = p_session_id ∧ r.message_hash = message_hash)) then
    .error .ambiguousColumn
  else
    .ok (true, ⟨p_session_id, message_hash, p_locked_by, nowMs,
                nowMs + p_lock_duration_seconds * 1000⟩ :: cleaned)

/-- `public.release_session_lock(p_session_id, p_message_content, p_locked_by)`:
its single `DELETE` has the `WHERE`-clause `session_id = p_session_id AND
message_hash = message_hash AND locked_by = p_locked_by`; `message_hash` is
again ambiguous between the declared plpgsql variable and the
`session_locks` column, so every call raises 42702 and no row is ever
deleted. -/
def release_session_lock (tbl : List LockRow)
    (p_session_id p_message_content p_locked_by : String) :
    Except PgError (Bool × List LockRow) :=
  .error .ambiguousColumn

/-! ## Request Ledger: `public.webhook_requests`

DDL (`part_001` plus later `ALTER`s): `id UUID PRIMARY KEY`,
`request_fingerprint TEXT NOT NULL UNIQUE`, `idempotency_key UUID NOT NULL
UNIQUE`, `status ∈ pending/processing/completed/failed`, timestamps,
`expires_at DEFAULT now() + 1 hour`, `n8n_response JSONB`, plus
`processing_started_at`, `retry_count DEFAULT 0`, `last_error`,
`content_hash`.  JSON payloads are modeled as opaque strings; row ids as
naturals standing for the generated UUIDs. -/

/-- `webhook_requests.status`. -/
inductive RStatus
  | pending
  | processing
  | completed
  | failed
deriving DecidableEq, Repr

/-- A row of `public.webhook_requests` (timestamps in epoch milliseconds). -/
structure LedgerEntry where
  id : Nat
  request_fingerprint : Option String
  session_id : String
  message_content_hash : String
  content_hash : Option String
  idempotency_key : String
  status : RStatus
  created_at : Nat
  processing_started_at : Option Nat
  completed_at : Option Nat
  expires_at : Nat
  n8n_response : Option String
  error_message : Option String
  retry_count : Nat
  last_error : Option String
deriving DecidableEq, Repr

/-- `INSERT INTO webhook_requests`: enforces `request_fingerprint NOT NULL`
(23502) and the primary-key / `UNIQUE (request_fingerprint)` /
`UNIQUE (idempotency_key)` constraints (23505); on success the new row is
added. -/
def insertClaim (e : LedgerEntry) (rows : List LedgerEntry) :
    Except PgError (List LedgerEntry) :=
  if e.request_fingerprint = none then .error .notNullViolation
  else if rows.any (fun r => decide (r.id = e.id ∨
      r.request_fingerprint = e.request_fingerprint ∨
      r.idempotency_key = e.idempotency_key)) then
    .error .uniqueViolation
  else .ok (e :: rows)

/-- The coordinator's completion update (webhook-proxy-minimal, multi-layer
variant): `UPDATE webhook_requests SET status='completed', completed_at=now(),
n8n_response=..., retry_count=1 WHERE id = ...` — it matches on `id` alone
(no status guard) and stores the literal `retry_count: 1`. -/
def finalizeSuccess (i : Nat) (resp : String) (nowMs : Nat)
    (rows : List LedgerEntry) : List LedgerEntry :=
  rows.map (fun r =>
    if r.id = i then
      { r with status := .completed, completed_at := some nowMs,
               n8n_response := some resp, retry_count := 1 }
    else r)

/-- The coordinator's failure update: sets `status='failed'`, `completed_at`,
`error_message` and `last_error`, matching on `id` alone. -/
def finalizeFailure (i : Nat) (msg : String) (nowMs : Nat)
    (rows : List LedgerEntry) : List LedgerEntry :=
  rows.map (fun r =>
    if r.id = i then
      { r with status := .failed, completed_at := some nowMs,
               error_message := some msg, last_error := some msg }
    else r)

/-- The inline stale-processing reclaim in the handler's duplicate branch:
`UPDATE ... SET status='failed', error_message='Processing timeout - marked
as failed', completed_at=now() WHERE id = ...`. -/
def markStaleFailedById (i nowMs : Nat) (rows : List LedgerEntry) : List LedgerEntry :=
  rows.map (fun r =>
    if r.id = i then
      { r with status := .failed,
               error_message := some "Processing timeout - marked as failed",
               completed_at := some nowMs }
    else r)

/-- `public.cleanup_stale_processing_requests()`: conditional update of all
`processing` rows whose `processing_started_at` is older than 2 minutes
(a `NULL` start time never satisfies the SQL comparison). -/
def cleanup_stale_processing_requests (nowMs : Nat)
    (rows : List LedgerEntry) : List LedgerEntry :=
  rows.map (fun r =>
    match r.processing_started_at with
    | some t =>
        if r.status = .processing ∧ t + 120000 < nowMs then
          { r with status := .failed,
                   error_message := some "Processing timeout - marked as failed",
                   completed_at := some nowMs }
        else r
    | none => r)

/-- `public.cleanup_old_webhook_requests()`: age-based purge of terminal
rows older than 24 hours. -/
def cleanup_old_webhook_requests (nowMs : Nat)
    (rows : List LedgerEntry) : List LedgerEntry :=
  rows.filter (fun r => decide (¬ (r.created_at + 86400000 < nowMs ∧
    (r.status = .completed ∨ r.status = .failed))))

/-- `public.cleanup_expired_webhook_requests()`: purge of rows past
`expires_at`. -/
def cleanup_expired_webhook_requests (nowMs : Nat)
    (rows : List LedgerEntry) : List LedgerEntry :=
  rows.filter (fun r => decide (¬ r.expires_at < nowMs))

/-- `public.check_recent_duplicate_request(p_session_id, p_message_content,
p_lookback_seconds)`: newest `processing`/`completed` row of the session whose
`message_content_hash` equals the SHA-256 of the message content, created
within the lookback window (`ORDER BY created_at DESC LIMIT 1`). -/
def recentDupMatch (sid contentHash : String) (lookbackSec nowMs : Nat)
    (e : LedgerEntry) : Bool :=
  decide (e.session_id = sid ∧ e.message_content_hash = contentHash ∧
    nowMs < e.created_at + lookbackSec * 1000 ∧
    (e.status = .processing ∨ e.status = .completed))

/-- Pick the row with the greatest `created_at` among those satisfying `p`
(the model of `ORDER BY created_at DESC LIMIT 1`). -/
def newestMatch (p : LedgerEntry → Bool) (rows : List LedgerEntry) : Option LedgerEntry :=
  (rows.filter p).foldl
    (fun acc e =>
      match acc with
      | none => some e
      | some a => if a.created_at < e.created_at then some e else some a)
    none

/-- `check_recent_duplicate_request`, returning the selected row. -/
def check_recent_duplicate_request (rows : List LedgerEntry)
    (p_session_id p_message_content : String) (p_lookback_seconds nowMs : Nat) :
    Option LedgerEntry :=
  newestMatch
    (recentDupMatch p_session_id (sha256hex p_message_content) p_lookback_seconds nowMs)
    rows

/-! ### Ledger operation language

All mutation of `webhook_requests` in the repository goes through the
operations modeled above.  `LedgerOp` wraps them so that invariants can be
stated over arbitrary interleavings: the store serializes the operations of
concurrent coordinator instances and of the Reclaimer, so any concurrent
execution is some sequence of these operations. -/

/-- One serialized store operation on `webhook_requests`. -/
inductive LedgerOp
  | insert (e : LedgerEntry)
  | complete (i : Nat) (resp : String) (nowMs : Nat)
  | failure (i : Nat) (msg : String) (nowMs : Nat)
  | staleById (i : Nat) (nowMs : Nat)
  | reclaim (nowMs : Nat)
  | purgeOld (nowMs : Nat)
  | purgeExpired (nowMs : Nat)
deriving DecidableEq, Repr

/-- Apply one operation (a failed insert leaves the table unchanged). -/
def applyOp (rows : List LedgerEntry) : LedgerOp → List LedgerEntry
  | .insert e => match insertClaim e rows with
      | .ok rows2 => rows2
      | .error _ => rows
  | .complete i resp t => finalizeSuccess i resp t rows
  | .failure i msg t => finalizeFailure i msg t rows
  | .staleById i t => markStaleFailedById i t rows
  | .reclaim t => cleanup_stale_processing_requests t rows
  | .purgeOld t => cleanup_old_webhook_requests t rows
  | .purgeExpired t => cleanup_expired_webhook_requests t rows

/-- Apply a sequence of operations left to right. -/
def applyOps (ops : List LedgerOp) (rows : List LedgerEntry) : List LedgerEntry :=
  ops.foldl applyOp rows

/-! ## Downstream Executor

`executeN8NRequest` of `webhook-proxy/index.ts` and of the multi-layer
`webhook-proxy-minimal` variant: one HTTP call per attempt, retried up to
`MAX_RETRIES = 2` additional times.  The environment decides each attempt's
outcome; the executor returns the first success together with the number of
attempts actually made (the instrumentation needed to compare against the
recorded `retry_count`), or the last error after exhausting retries. -/

/-- Outcome of a single downstream HTTP attempt, chosen by the environment. -/
inductive DSResult
  | ok (resp : String)
  | fail (msg : String)
deriving DecidableEq, Repr

/-- `MAX_RETRIES = 2` additional attempts. -/
def MAX_RETRIES : Nat := 2

/-- Retry loop of `executeN8NRequest`, structurally recursive on the number
of retries still allowed (`fuel = MAX_RETRIES - retryCount`, so `fuel = 0`
exactly when `retryCount < MAX_RETRIES` fails and the last error is thrown). -/
def executeN8NAux (behavior : Nat → DSResult) : Nat → Nat → Except String (String × Nat)
  | 0, retryCount =>
      (match behavior retryCount with
       | .ok r => .ok (r, retryCount + 1)
       | .fail m => .error m)
  | fuel + 1, retryCount =>
      (match behavior retryCount with
       | .ok r => .ok (r, retryCount + 1)
       | .fail _ => executeN8NAux behavior fuel (retryCount + 1))

/-- `executeN8NRequest(content, sessionId, requestId, retryCount)`:
`behavior n` is attempt `n`'s outcome.  Returns `(response, attemptsMade)`. -/
def executeN8NRequest (behavior : Nat → DSResult) (retryCount : Nat) :
    Except String (String × Nat) :=
  executeN8NAux behavior (MAX_RETRIES - retryCount) retryCount

/-! ## The handlers

`Req` is the parsed POST body.  HTTP responses carry a status code and either
the JSON payload forwarded to the caller (`jsonVal`, possibly SQL `NULL`) or
an error message. -/

/-- Parsed request body `{content, sessionId, idempotencyKey}`. -/
structure Req where
  content : String
  sessionId : String
  idempotencyKey : String
deriving DecidableEq, Repr

/-- Response body: a forwarded JSON value or a structured error message. -/
inductive Body
  | jsonVal (v : Option String)
  | err (m : String)
deriving DecidableEq, Repr

/-- An HTTP response. -/
structure Resp where
  status : Nat
  body : Body
deriving DecidableEq, Repr

/-! ### Minimal handler (`webhook-proxy-minimal`, single-layer variant)

Validate → look up the newest row with this `idempotency_key` created within
90 minutes → return the cached response if `completed` with a response /
409 if `processing` → otherwise execute the downstream call (no retry loop in
this variant) → best-effort upsert of the result (failures swallowed) →
return the downstream result. -/

/-- Environment of one minimal-handler invocation. -/
structure EnvMin where
  ledger : List LedgerEntry
  nowMs : Nat
  downstream : DSResult
  dbCheckOk : Bool
  newId : Nat
deriving Repr

/-- Outcome of one minimal-handler invocation. -/
structure OutMin where
  resp : Resp
  ledger : List LedgerEntry
  dsCalls : Nat
deriving DecidableEq, Repr

/-- The duplicate-check predicate of the minimal handler:
`idempotency_key = key AND created_at >= now() - 90 minutes`. -/
def minimalDupMatch (key : String) (nowMs : Nat) (e : LedgerEntry) : Bool :=
  decide (e.idempotency_key = key ∧ nowMs - 5400000 ≤ e.created_at)

/-- Execution phase of the minimal handler: single downstream attempt, then a
best-effort write.  The upsert supplies no `request_fingerprint`, so the
`NOT NULL` constraint rejects it; the failure is caught and logged
(`"Failed to save result"`), and the successful downstream response is
returned regardless. -/
def handlerMinimalExec (env : EnvMin) (req : Req) : OutMin :=
  match env.downstream with
  | .ok r =>
      let e : LedgerEntry :=
        { id := env.newId, request_fingerprint := none, session_id := req.sessionId,
          message_content_hash := req.idempotencyKey, content_hash := none,
          idempotency_key := req.idempotencyKey, status := .completed,
          created_at := env.nowMs, processing_started_at := none,
          completed_at := some env.nowMs, expires_at := env.nowMs + 3600000,
          n8n_response := some r, error_message := none, retry_count := 0,
          last_error := none }
      let ledger2 := match insertClaim e env.ledger with
        | .ok l => l
        | .error _ => env.ledger
      ⟨⟨200, .jsonVal (some r)⟩, ledger2, 1⟩
  | .fail m => ⟨⟨500, .err m⟩, env.ledger, 1⟩

/-- The minimal handler (`webhook-proxy-minimal/index.ts`, single-layer
variant, POST path). -/
def handlerMinimal (env : EnvMin) (req : Req) : OutMin :=
  if jsTrim req.content = "" ∨ req.sessionId = "" ∨ req.idempotencyKey = "" then
    ⟨⟨400, .err "Missing required fields: content, sessionId, idempotencyKey"⟩, env.ledger, 0⟩
  else
    let found := if env.dbCheckOk then
        newestMatch (minimalDupMatch req.idempotencyKey env.nowMs) env.ledger
      else none
    match found with
    | some ex =>
        if ex.status = .completed ∧ ex.n8n_response ≠ none then
          ⟨⟨200, .jsonVal ex.n8n_response⟩, env.ledger, 0⟩
        else if ex.status = .processing then
          ⟨⟨409, .err "Request already processing"⟩, env.ledger, 0⟩
        else handlerMinimalExec env req
    | none => handlerMinimalExec env req

/-! ### Multi-layer coordinator (`webhook-proxy-minimal`, final variant)

LAYER 1 lease acquisition → LAYER 2 recent-duplicate scan → LAYER 3
fingerprint → LAYER 4 fingerprint/idempotency lookup → claim insert →
downstream execution with retries → finalization → `finally` lease release. -/

/-- Environment of one coordinator invocation: store state, wall clock,
downstream behavior, whether the two finalization `UPDATE`s succeed at the
store, the instance's `requestId` (8 chars of a random UUID, the lock
holder), and the id the store assigns to a newly inserted row. -/
structure Env where
  ledger : List LedgerEntry
  locks : List LockRow
  nowMs : Nat
  behavior : Nat → DSResult
  completeUpdateOk : Bool
  failUpdateOk : Bool
  requestId : String
  newId : Nat

/-- Result of the handler body before the `finally` block runs. -/
structure BodyOut where
  resp : Resp
  ledger : List LedgerEntry
  locks : List LockRow
  dsCalls : Nat
  lockAcquired : Bool
deriving DecidableEq, Repr

/-- Final outcome of one coordinator invocation; `releaseInvoked` records
whether the `finally` block called `release_session_lock`. -/
structure Outcome where
  resp : Resp
  ledger : List LedgerEntry
  locks : List LockRow
  dsCalls : Nat
  lockAcquired : Bool
  releaseInvoked : Bool
deriving DecidableEq, Repr

/-- The LAYER-4 lookup predicate:
`request_fingerprint = fp OR idempotency_key = key`, `expires_at >= now()`. -/
def layer4Match (fp key : String) (nowMs : Nat) (e : LedgerEntry) : Bool :=
  decide ((e.request_fingerprint = some fp ∨ e.idempotency_key = key) ∧
    nowMs ≤ e.expires_at)

/-- The ledger row the coordinator inserts at claim time (DDL defaults fill
`created_at = now()` and `expires_at = now() + 1 hour`; `retry_count`
defaults to 0). -/
def mkClaimEntry (env : Env) (req : Req) (fp : String) : LedgerEntry :=
  { id := env.newId, request_fingerprint := some fp, session_id := req.sessionId,
    message_content_hash := fp, content_hash := some (sha256hex (jsTrim req.content)),
    idempotency_key := req.idempotencyKey, status := .processing,
    created_at := env.nowMs, processing_started_at := some env.nowMs,
    completed_at := none, expires_at := env.nowMs + 3600000, n8n_response := none,
    error_message := none, retry_count := 0, last_error := none }

/-- Claim insert, downstream execution and finalization (steps after the
duplicate layers).  A unique-constraint violation on insert is returned as a
409; any other insert error is thrown (500).  After a successful downstream
call the completion update's failure is logged and ignored; after a failed
downstream call the failure update runs and the error is rethrown (500). -/
def layeredInsertPhase (env : Env) (req : Req) (fp : String)
    (ledger : List LedgerEntry) (locks : List LockRow) (lockAcq : Bool) : BodyOut :=
  match insertClaim (mkClaimEntry env req fp) ledger with
  | .error .uniqueViolation =>
      ⟨⟨409, .err "Duplicate request detected"⟩, ledger, locks, 0, lockAcq⟩
  | .error _ =>
      ⟨⟨500, .err "Failed to create request record"⟩, ledger, locks, 0, lockAcq⟩
  | .ok ledger1 =>
      match executeN8NRequest env.behavior 0 with
      | .ok (r, _) =>
          let ledger2 := if env.completeUpdateOk then
              finalizeSuccess env.newId r env.nowMs ledger1
            else ledger1
          ⟨⟨200, .jsonVal (some r)⟩, ledger2, locks, 1, lockAcq⟩
      | .error m =>
          let ledger2 := if env.failUpdateOk then
              finalizeFailure env.newId m env.nowMs ledger1
            else ledger1
          ⟨⟨500, .err m⟩, ledger2, locks, 1, lockAcq⟩

/-- LAYER 4: look up an unexpired row by fingerprint or idempotency key with
`.single()` (no row → fall through to the claim insert; exactly one row →
dispatch on its status, inline-reclaiming a stale `processing` row; more than
one row → `.single()` reports an error and the handler throws). -/
def layeredDupPhase (env : Env) (req : Req) (fp : String)
    (ledger : List LedgerEntry) (locks : List LockRow) (lockAcq : Bool) : BodyOut :=
  match ledger.filter (layer4Match fp req.idempotencyKey env.nowMs) with
  | [] => layeredInsertPhase env req fp ledger locks lockAcq
  | [ex] =>
      if ex.status = .completed then
        ⟨⟨200, .jsonVal ex.n8n_response⟩, ledger, locks, 0, lockAcq⟩
      else if ex.status = .processing then
        (match ex.processing_started_at with
         | some t =>
             if 120000 < env.nowMs - t then
               layeredInsertPhase env req fp (markStaleFailedById ex.id env.nowMs ledger)
                 locks lockAcq
             else
               ⟨⟨409, .err "Request already in progress"⟩, ledger, locks, 0, lockAcq⟩
         | none =>
             ⟨⟨409, .err "Request already in progress"⟩, ledger, locks, 0, lockAcq⟩)
      else if ex.status = .failed then
        ⟨⟨500, .err (ex.error_message.getD "Previous request failed")⟩, ledger, locks, 0, lockAcq⟩
      else layeredInsertPhase env req fp ledger locks lockAcq
  | _ =>
      ⟨⟨500, .err "Failed to check for duplicate requests"⟩, ledger, locks, 0, lockAcq⟩

/-- LAYERS 2–4 (after lease acquisition): recent-duplicate scan with a
90-second lookback, then the fingerprint-based lookup with the 90-second
window.  `time_since_created` is `EXTRACT(epoch ...)::BIGINT`, a rounded
second count. -/
def layeredAfterLock (env : Env) (req : Req) (locks : List LockRow)
    (lockAcq : Bool) : BodyOut :=
  let fp := generate_request_fingerprint req.sessionId (jsTrim req.content) 90 env.nowMs
  match check_recent_duplicate_request env.ledger req.sessionId (jsTrim req.content)
      90 env.nowMs with
  | some ex =>
      if ex.status = .completed ∧ ex.n8n_response ≠ none then
        ⟨⟨200, .jsonVal ex.n8n_response⟩, env.ledger, locks, 0, lockAcq⟩
      else if ex.status = .processing ∧ (env.nowMs - ex.created_at + 500) / 1000 < 120 then
        ⟨⟨409, .err "Recent identical request still processing"⟩, env.ledger, locks, 0, lockAcq⟩
      else layeredDupPhase env req fp env.ledger locks lockAcq
  | none => layeredDupPhase env req fp env.ledger locks lockAcq

/-- Handler body of the multi-layer coordinator (everything inside the `try`):
validation, LAYER-1 lease acquisition (an acquisition *error* is logged and
the request proceeds without the lease; `false` would be answered with 409;
`true` records `lockAcquired = true`), then LAYERS 2–4. -/
def handlerLayeredBody (env : Env) (req : Req) : BodyOut :=
  if jsTrim req.content = "" ∨ req.sessionId = "" ∨ req.idempotencyKey = "" then
    ⟨⟨400, .err "Missing required fields: content, sessionId, idempotencyKey"⟩,
     env.ledger, env.locks, 0, false⟩
  else
    match acquire_session_lock env.locks req.sessionId (jsTrim req.content)
        env.requestId 120 env.nowMs with
    | .error _ => layeredAfterLock env req env.locks false
    | .ok (false, locks2) =>
        ⟨⟨409, .err "Request already being processed by another instance"⟩,
         env.ledger, locks2, 0, false⟩
    | .ok (true, locks2) => layeredAfterLock env req locks2 true

/-- The multi-layer coordinator (`webhook-proxy-minimal/index.ts`, final
variant, POST path): runs the body, then the `finally` block, which — when
`lockAcquired && requestId && requestData` — invokes `release_session_lock`
(its own error is caught and only logged). -/
def handlerLayered (env : Env) (req : Req) : Outcome :=
  let b := handlerLayeredBody env req
  if b.lockAcquired = true ∧ env.requestId ≠ "" then
    match release_session_lock b.locks req.sessionId (jsTrim req.content) env.requestId with
    | .ok (_, locks2) => ⟨b.resp, b.ledger, locks2, b.dsCalls, b.lockAcquired, true⟩
    | .error _ => ⟨b.resp, b.ledger, b.locks, b.dsCalls, b.lockAcquired, true⟩
  else ⟨b.resp, b.ledger, b.locks, b.dsCalls, b.lockAcquired, false⟩

/-! ## Predicates used by the invariant theorems, and concrete scenarios -/

/-- The row carries request fingerprint `x`. -/
def hasFp (x : String) (e : LedgerEntry) : Bool :=
  decide (e.request_fingerprint = some x)

/-- The row carries request fingerprint `x` and is `completed`. -/
def hasFpCompleted (x : String) (e : LedgerEntry) : Bool :=
  decide (e.request_fingerprint = some x ∧ e.status = .completed)

/-- Operations that could (re)introduce a `completed` status for row id `i`:
the coordinator's completion update for `i`, or an insert that reuses id `i`
(impossible for freshly generated UUID ids, and excluded by hypothesis). -/
def canCompleteId (i : Nat) : LedgerOp → Bool
  | .complete j _ _ => j == i
  | .insert e => e.id == i
  | _ => false

/-- Downstream behavior: two timeouts, then success ("Scenario B"). -/
def twoFailsThenOk : Nat → DSResult := fun n =>
  if n < 2 then .fail "Request timeout after 40 seconds" else .ok "THIRD"

/-- Environment for the retry scenario: fresh store, wall clock
2025-07-09 10:30:10 UTC. -/
def env8 : Env := ⟨[], [], 1752057010000, twoFailsThenOk, true, true, "aaaa1111", 1⟩

/-- Request A: `"hello"` in the sample session, idempotency key `key-A`. -/
def reqA : Req := ⟨"hello", sampleSession, "key-A"⟩

/-- Request B: the same session and content as `reqA`, distinct idempotency
key (two clicks of the same message). -/
def reqB : Req := ⟨"hello", sampleSession, "key-B"⟩

/-- First coordinator run: fresh store at 2025-07-09 10:30:10.000 UTC. -/
def envA : Env := ⟨[], [], 1752057010000, fun _ => .ok "RA", true, true, "aaaa1111", 1⟩

/-- Outcome of the first coordinator run. -/
def outA : Outcome := handlerLayered envA reqA

/-- Second coordinator run, 700 ms later (same second, same 90-second
window), against the store state left by the first run. -/
def envB : Env := ⟨outA.ledger, outA.locks, 1752057010700, fun _ => .ok "RB", true, true,
                  "bbbb2222", 2⟩

/-- Outcome of the second coordinator run. -/
def outB : Outcome := handlerLayered envB reqB

/-- A lease on (sample session, `"hello"`) held by another holder, expiring
at 10:31:00 UTC — unexpired at the 10:30:10 call time. -/
def lockOther : LockRow :=
  ⟨sampleSession, sha256hex "hello", "other-holder", 1752057000000, 1752057060000⟩

/-- An unexpired lease on (sample session, `"hello"`) held by `"me"`. -/
def lockMine : LockRow :=
  ⟨sampleSession, sha256hex "hello", "me", 1752057000000, 1752057060000⟩

/-- A `processing` ledger row whose `processing_started_at` is far in the
past (stale). -/
def staleEntry : LedgerEntry :=
  { id := 7, request_fingerprint := some "fp7", session_id := sampleSession,
    message_content_hash := "fp7", content_hash := none, idempotency_key := "key-7",
    status := .processing, created_at := 0, processing_started_at := some 0,
    completed_at := none, expires_at := 3600000, n8n_response := none,
    error_message := none, retry_count := 0, last_error := none }

/-- A `completed` ledger row with a cached response, for replay scenarios. -/
def cachedEntry : LedgerEntry :=
  { id := 9, request_fingerprint := some "fp9", session_id := sampleSession,
    message_content_hash := "key-9", content_hash := none, idempotency_key := "key-9",
    status := .completed, created_at := 1752057000000,
    processing_started_at := some 1752057000000, completed_at := some 1752057005000,
    expires_at := 1752060600000, n8n_response := some "CACHED", error_message := none,
    retry_count := 1, last_error := none }

/-! # Theorems -/

/-! ## General helper lemmas -/

/-- Two `sessionId|content|bucket` pre-images with the same session and
content segments differ whenever their bucket segments differ. -/
theorem pipe_append_ne (s m a b : String) (hab : a ≠ b) :
    s ++ "|" ++ m ++ "|" ++ a ≠ s ++ "|" ++ m ++ "|" ++ b := by
  intro h
  apply hab
  apply String.ext
  have hd := congrArg String.data h
  simp only [String.data_append] at hd
  exact List.append_cancel_left hd

/-- Mapping a fingerprint-preserving update over the table preserves the
per-fingerprint row count. -/
theorem countP_hasFp_map (f : LedgerEntry → LedgerEntry)
    (hf : ∀ e, (f e).request_fingerprint = e.request_fingerprint)
    (rows : List LedgerEntry) (x : String) :
    (rows.map f).countP (hasFp x) = rows.countP (hasFp x) := by
  rw [List.countP_map]
  have hcomp : (hasFp x ∘ f) = hasFp x := by
    funext e
    simp [hasFp, Function.comp, hf]
  rw [hcomp]

/-- Every serialized store operation preserves "at most one row per
fingerprint" — the invariant the `UNIQUE (request_fingerprint)` constraint
enforces at insert time. -/
theorem fpUnique_applyOp (rows : List LedgerEntry) (op : LedgerOp)
    (h : ∀ x, rows.countP (hasFp x) ≤ 1) :
    ∀ x, (applyOp rows op).countP (hasFp x) ≤ 1 := by
  intro x
  cases op with
  | insert e =>
      by_cases h1 : e.request_fingerprint = none
      · simp only [applyOp, insertClaim, if_pos h1]
        exact h x
      · cases hany : rows.any (fun r => decide (r.id = e.id ∨
            r.request_fingerprint = e.request_fingerprint ∨
            r.idempotency_key = e.idempotency_key)) with
        | true =>
            simp only [applyOp, insertClaim, if_neg h1, hany, if_pos rfl]
            exact h x
        | false =>
            have hins : insertClaim e rows = .ok (e :: rows) := by
              simp only [insertClaim, if_neg h1, hany]
              simp
            simp only [applyOp, hins, List.countP_cons]
            by_cases h3 : hasFp x e = true
            · have hx : e.request_fingerprint = some x := by
                simpa [hasFp] using h3
              have hzero : rows.countP (hasFp x) = 0 := by
                rw [List.countP_eq_zero]
                intro a ha hpa
                have hax : a.request_fingerprint = some x := by
                  simpa [hasFp] using hpa
                have hna := List.any_eq_false.mp hany a ha
                apply hna
                simp [hax, hx]
              rw [hzero, h3]
              simp
            · have h3f : hasFp x e = false := Bool.eq_false_iff.mpr h3
              rw [h3f]
              simpa using h x
  | complete i resp t =>
      have heq := countP_hasFp_map (fun r => if r.id = i then
          { r with status := .completed, completed_at := some t,
                   n8n_response := some resp, retry_count := 1 } else r)
        (by intro e; dsimp only; split <;> rfl) rows x
      simp only [applyOp, finalizeSuccess]
      exact heq.le.trans (h x)
  | failure i msg t =>
      have heq := countP_hasFp_map (fun r => if r.id = i then
          { r with status := .failed, completed_at := some t,
                   error_message := some msg, last_error := some msg } else r)
        (by intro e; dsimp only; split <;> rfl) rows x
      simp only [applyOp, finalizeFailure]
      exact heq.le.trans (h x)
  | staleById i t =>
      have heq := countP_hasFp_map (fun r => if r.id = i then
          { r with status := .failed,
                   error_message := some "Processing timeout - marked as failed",
                   completed_at := some t } else r)
        (by intro e; dsimp only; split <;> rfl) rows x
      simp only [applyOp, markStaleFailedById]
      exact heq.le.trans (h x)
  | reclaim t =>
      have heq := countP_hasFp_map (fun r =>
          match r.processing_started_at with
          | some t0 =>
              if r.status = .processing ∧ t0 + 120000 < t then
                { r with status := .failed,
                         error_message := some "Processing timeout - marked as failed",
                         completed_at := some t }
              else r
          | none => r)
        (by
          intro e
          dsimp only
          cases hps : e.processing_started_at with
          | none => rfl
          | some t0 =>
              dsimp only
              split <;> rfl) rows x
      simp only [applyOp, cleanup_stale_processing_requests]
      exact heq.le.trans (h x)
  | purgeOld t =>
      simp only [applyOp, cleanup_old_webhook_requests]
      exact le_trans ((List.filter_sublist rows).countP_le _) (h x)
  | purgeExpired t =>
      simp only [applyOp, cleanup_expired_webhook_requests]
      exact le_trans ((List.filter_sublist rows).countP_le _) (h x)

/-- Every serialized store operation preserves the per-id all-failed
invariant, provided it is not a completion update (or id-reusing insert)
for that id. -/
theorem keepFailed_applyOp (i : Nat) (rows : List LedgerEntry) (op : LedgerOp)
    (hop : canCompleteId i op = false)
    (h : ∀ r ∈ rows, r.id = i → r.status = .failed) :
    ∀ r ∈ applyOp rows op, r.id = i → r.status = .failed := by
  cases op with
  | insert e =>
      intro r hr hri
      have hei : ¬ e.id = i := by simpa [canCompleteId] using hop
      rcases hins : insertClaim e rows with pe | l
      · rw [applyOp, hins] at hr
        exact h r hr hri
      · rw [applyOp, hins] at hr
        have hl : l = e :: rows := by
          simp only [insertClaim] at hins
          split at hins
          · cases hins
          · split at hins
            · cases hins
            · exact (Except.ok.injEq _ _ ▸ hins).symm
        subst hl
        rcases List.mem_cons.mp hr with rfl | hmem
        · exact absurd hri hei
        · exact h r hmem hri
  | complete j resp t =>
      intro r hr hri
      have hji : ¬ j = i := by simpa [canCompleteId] using hop
      simp only [applyOp, finalizeSuccess, List.mem_map] at hr
      obtain ⟨a, ha, rfl⟩ := hr
      by_cases haj : a.id = j
      · rw [if_pos haj] at hri ⊢
        exact absurd (hri ▸ haj ▸ rfl : j = i) hji
      · rw [if_neg haj] at hri ⊢
        exact h a ha hri
  | failure j msg t =>
      intro r hr hri
      simp only [applyOp, finalizeFailure, List.mem_map] at hr
      obtain ⟨a, ha, rfl⟩ := hr
      by_cases haj : a.id = j
      · rw [if_pos haj]
      · rw [if_neg haj] at hri ⊢
        exact h a ha hri
  | staleById j t =>
      intro r hr hri
      simp only [applyOp, markStaleFailedById, List.mem_map] at hr
      obtain ⟨a, ha, rfl⟩ := hr
      by_cases haj : a.id = j
      · rw [if_pos haj]
      · rw [if_neg haj] at hri ⊢
        exact h a ha hri
  | reclaim t =>
      intro r hr hri
      simp only [applyOp, cleanup_stale_processing_requests, List.mem_map] at hr
      obtain ⟨a, ha, rfl⟩ := hr
      cases hps : a.processing_started_at with
      | none =>
          simp only [hps] at hri ⊢
          exact h a ha hri
      | some t0 =>
          simp only [hps] at hri ⊢
          by_cases hcond : a.status = .processing ∧ t0 + 120000 < t
          · rw [if_pos hcond]
          · rw [if_neg hcond] at hri ⊢
            exact h a ha hri
  | purgeOld t =>
      intro r hr hri
      exact h r (List.mem_filter.mp hr).1 hri
  | purgeExpired t =>
      intro r hr hri
      exact h r (List.mem_filter.mp hr).1 hri

/-- If all rows matched by `p` share the idempotency key `k`, the table's
keys are pairwise distinct, and `E` is a member matched by `p`, then `E` is
the only match. -/
theorem filter_singleton_of_key (p : LedgerEntry → Bool) (k : String)
    (rows : List LedgerEntry) (E : LedgerEntry)
    (hpair : rows.Pairwise (fun a b => a.idempotency_key ≠ b.idempotency_key))
    (hmem : E ∈ rows) (hp : p E = true)
    (hkey : ∀ e, p e = true → e.idempotency_key = k) :
    rows.filter p = [E] := by
  induction rows with
  | nil => cases hmem
  | cons x xs ih =>
      rw [List.pairwise_cons] at hpair
      rcases List.mem_cons.mp hmem with rfl | hE
      · rw [List.filter_cons_of_pos hp]
        have hnil : xs.filter p = [] := by
          rw [List.filter_eq_nil_iff]
          intro a ha hpa
          exact hpair.1 a ha ((hkey E hp).trans (hkey a hpa).symm)
        rw [hnil]
      · have hpx : p x = false := by
          rcases hx : p x with _ | _
          · rfl
          · exact absurd ((hkey x hx).trans (hkey E hp).symm) (hpair.1 E hE)
        rw [List.filter_cons_of_neg (by simp [hpx])]
        exact ih hpair.2 hE

/-- If the filter has the single match `E`, the newest match is `E`. -/
theorem newestMatch_eq_of_filter_singleton (p : LedgerEntry → Bool)
    (rows : List LedgerEntry) (E : LedgerEntry) (hf : rows.filter p = [E]) :
    newestMatch p rows = some E := by
  simp [newestMatch, hf]

/-! ## Claim theorems -/

/-- C1 (counterexample).  The claim says that N concurrent requests with one
(sessionId, content) pair inside one fingerprint time window yield at most
one `completed` ledger entry for that pair.  Here two coordinator runs for
the *same* pair (`sampleSession`, `"hello"`), with wall clocks 700 ms apart
inside the same second (hence trivially inside one 90-second window) and
distinct idempotency keys, each pass every duplicate layer, each invoke the
downstream executor once, and leave **two** `completed` ledger entries for
the pair: because `generate_request_fingerprint` truncates `now()` to the
second but *rounds* the epoch before taking the modulus, the two runs hash
different bucket values and obtain different fingerprints, so the
`request_fingerprint` unique constraint never fires. -/
theorem C1_counterexample :
    (1752057010000 / 1000 / 90 = 1752057010700 / 1000 / 90) ∧
    outA.dsCalls = 1 ∧ outB.dsCalls = 1 ∧
    outB.ledger.countP
      (fun e => decide (e.session_id = sampleSession ∧ e.status = .completed)) = 2 := by
  decide

/-- C1 (amended).  What the unique constraint does enforce: across any
sequence of serialized store operations starting from a table with at most
one row per fingerprint, at most one `completed` ledger entry ever exists
per request fingerprint.  (Per *fingerprint*, not per session+content+window:
the generator can emit two distinct fingerprints inside one window.) -/
theorem C1_amended_theorem (rows : List LedgerEntry)
    (h : ∀ x, rows.countP (hasFp x) ≤ 1) (ops : List LedgerOp) (x : String) :
    (applyOps ops rows).countP (hasFpCompleted x) ≤ 1 := by
  have hall : ∀ rows2, (∀ y, rows2.countP (hasFp y) ≤ 1) →
      ∀ y, (applyOps ops rows2).countP (hasFp y) ≤ 1 := by
    induction ops with
    | nil => intro rows2 h2 y; simpa [applyOps] using h2 y
    | cons op rest ih =>
        intro rows2 h2 y
        simp only [applyOps, List.foldl_cons] at ih ⊢
        exact ih (applyOp rows2 op) (fpUnique_applyOp rows2 op h2) y
  refine le_trans (List.countP_mono_left ?_) (hall rows h x)
  intro e _ hp
  have hx : e.request_fingerprint = some x ∧ e.status = .completed := by
    simpa [hasFpCompleted] using hp
  simp [hasFp, hx.1]

/-- C1 (witness for the amended theorem): a concrete trace — claim, reclaim,
late completion, purge — starting from the empty table keeps at most one
completed row per fingerprint. -/
theorem C1_amended_witness :
    (∀ x, List.countP (hasFp x) ([] : List LedgerEntry) ≤ 1) ∧
    (applyOps [.insert staleEntry, .reclaim 200000, .complete 7 "LATE" 300000,
               .purgeOld 100000000] []).countP (hasFpCompleted "fp7") ≤ 1 :=
  ⟨fun x => by simp,
   C1_amended_theorem [] (fun x => by simp)
     [.insert staleEntry, .reclaim 200000, .complete 7 "LATE" 300000,
      .purgeOld 100000000] "fp7"⟩

/-- C3 (counterexample).  At 2025-07-09 10:30:10 UTC, for the same session
and the content `"hello"`, the client's duplicate-suppression key
(`generateIdempotencyKey`, 90-minute integer bucket) and the coordinator's
`generate_request_fingerprint` (90-second timestamp-text bucket) produce
different digests — the two callers do not run the same algorithm. -/
theorem C3_counterexample :
    generateIdempotencyKey "hello" sampleSession 1752057010000 ≠
    generate_request_fingerprint sampleSession "hello" 90 1752057010000 := by
  decide

/-- C3 (amended).  The client and the coordinator compute *different* keys:
for every session id and content, at the concrete instant
2025-07-09 10:30:10 UTC, the client hashes
`sessionId|content|⌊ms/90min⌋` (= `...|324455`) while the coordinator hashes
`sessionId|content|timestampText(90-second bucket)`
(= `...|2025-07-09 10:30:00+00`); the two hash pre-images always differ, so
the keys agree only on a SHA-256 collision. -/
theorem C3_amended_theorem (s c : String) :
    clientKeyData c s 1752057010000 ≠
    pgFingerprintData s (jsTrim c) 90 1752057010000 := by
  simp only [clientKeyData, pgFingerprintData]
  exact pipe_append_ne s (jsTrim c) _ _ (by decide)

/-- C4 (counterexample).  A `processing` entry (id 7) whose
`processing_started_at` lies past the stale threshold is moved to `failed`
by the Reclaimer — and the coordinator's later completion update, which
matches on id alone with no status guard, then sets that same entry to
`completed`. -/
theorem C4_counterexample :
    (applyOps [.reclaim 200000] [staleEntry]).map (fun e => e.status) = [.failed] ∧
    (applyOps [.reclaim 200000, .complete 7 "LATE" 300000] [staleEntry]).map
      (fun e => e.status) = [.completed] := by
  decide

/-- C4 (amended).  After every row with id `i` is `failed` (as after a
Reclaimer pass over a stale `processing` entry), no later sequence of store
operations that contains neither a completion update for `i` nor an insert
reusing id `i` ever makes a row with id `i` `completed` — reclaim runs,
failure updates, stale-marking and purges all preserve `failed`.  Only the
coordinator's unconditional by-id completion update can (and does, see the
counterexample) move it to `completed`. -/
theorem C4_amended_theorem (rows : List LedgerEntry) (i : Nat) (ops : List LedgerOp)
    (hfail : ∀ r ∈ rows, r.id = i → r.status = .failed)
    (hops : ∀ op ∈ ops, canCompleteId i op = false) :
    ∀ r ∈ applyOps ops rows, r.id = i → r.status = .failed := by
  induction ops generalizing rows with
  | nil => simpa [applyOps] using hfail
  | cons op rest ih =>
      simp only [applyOps, List.foldl_cons]
      exact ih (applyOp rows op)
        (keepFailed_applyOp i rows op (hops op (by simp)) hfail)
        (fun o ho => hops o (by simp [ho]))

/-- C4 (witness for the amended theorem): concretely, a reclaimed-failed
entry stays `failed` under a later reclaim, a failure update for another id,
and an age purge. -/
theorem C4_amended_witness :
    (∀ r ∈ (applyOps [.reclaim 200000] [staleEntry]), r.id = 7 → r.status = .failed) ∧
    (∀ op ∈ ([.reclaim 400000, .failure 8 "boom" 400000, .purgeOld 500000] : List LedgerOp),
      canCompleteId 7 op = false) ∧
    (∀ r ∈ applyOps [.reclaim 400000, .failure 8 "boom" 400000, .purgeOld 500000]
        (applyOps [.reclaim 200000] [staleEntry]), r.id = 7 → r.status = .failed) :=
  ⟨by decide, by decide,
   C4_amended_theorem (applyOps [.reclaim 200000] [staleEntry]) 7
     [.reclaim 400000, .failure 8 "boom" 400000, .purgeOld 500000]
     (by decide) (by decide)⟩

/-- C5 (code bug).  With an *unexpired* lease on (session, hash("hello"))
held by another holder, `acquire_session_lock` neither returns `false` nor
takes over: the takeover `UPDATE`'s `message_hash = message_hash` condition
is an ambiguous column reference (plpgsql variable vs `session_locks`
column), so the call raises SQLSTATE 42702 and aborts with no effect. -/
theorem C5_theorem :
    lockOther.session_id = sampleSession ∧
    lockOther.message_hash = sha256hex "hello" ∧
    lockOther.locked_by ≠ "me" ∧
    1752057010000 < lockOther.expires_at ∧
    acquire_session_lock [lockOther] sampleSession "hello" "me" 120 1752057010000 =
      .error .ambiguousColumn := by
  decide

/-- C6 (code bug).  Even for the exactly matching lease row (same session,
same content hash, same holder), `release_session_lock` never deletes
anything and never returns a boolean: its `DELETE`'s
`message_hash = message_hash` condition is the same ambiguous column
reference, so every call raises SQLSTATE 42702. -/
theorem C6_theorem :
    lockMine.session_id = sampleSession ∧
    lockMine.message_hash = sha256hex "hello" ∧
    lockMine.locked_by = "me" ∧
    release_session_lock [lockMine] sampleSession "hello" "me" =
      .error .ambiguousColumn := by
  decide

/-- C7 (code bug).  `generate_request_fingerprint` mixes `date_trunc`
(truncation) with an `EXTRACT(epoch ...)::INTEGER` cast (rounding): at
10:30:10.000 and 10:30:10.700 — the same second, hence the same 90-second
bucket — it hashes different bucket timestamps and yields different digests;
and at 10:31:29.600 and 10:31:30.700 — different 90-second buckets — it
hashes the *identical* pre-image (bucket `10:31:29`), so the digests
coincide without any hash collision. -/
theorem C7_theorem :
    (1752057010000 / 1000 / 90 = 1752057010700 / 1000 / 90) ∧
    generate_request_fingerprint sampleSession "hello" 90 1752057010000 ≠
      generate_request_fingerprint sampleSession "hello" 90 1752057010700 ∧
    ¬ (1752057089600 / 1000 / 90 = 1752057090700 / 1000 / 90) ∧
    pgFingerprintData sampleSession "hello" 90 1752057089600 =
      pgFingerprintData sampleSession "hello" 90 1752057090700 ∧
    generate_request_fingerprint sampleSession "hello" 90 1752057089600 =
      generate_request_fingerprint sampleSession "hello" 90 1752057090700 := by
  decide

/-- C8 (code bug).  Scenario B: the downstream call fails twice and succeeds
on the third attempt (3 attempts made, within `MAX_RETRIES = 2` additional
tries).  The caller receives the successful result and the ledger entry ends
`completed` — but the recorded `retry_count` is the hard-coded constant `1`
(the source comments it `// Increment retry count`), not a reflection of the
3 attempts actually made. -/
theorem C8_theorem :
    executeN8NRequest twoFailsThenOk 0 = .ok ("THIRD", 3) ∧
    (handlerLayered env8 reqA).resp = ⟨200, .jsonVal (some "THIRD")⟩ ∧
    (handlerLayered env8 reqA).ledger.map (fun e => (e.status, e.retry_count)) =
      [(.completed, 1)] := by
  decide

/-- C2 (confirmed).  For every request whose `idempotencyKey` equals the key
of an existing `completed` ledger entry holding a cached response and created
within the 90-minute retention window, the minimal handler returns that
entry's cached result and performs no downstream call.  The pairwise-distinct
key hypothesis is the table's `UNIQUE (idempotency_key)` constraint. -/
theorem C2_theorem (env : EnvMin) (req : Req) (E : LedgerEntry) (r : String)
    (hv : ¬ (jsTrim req.content = "" ∨ req.sessionId = "" ∨ req.idempotencyKey = ""))
    (hchk : env.dbCheckOk = true)
    (hmem : E ∈ env.ledger)
    (hkeyE : E.idempotency_key = req.idempotencyKey)
    (hrecent : env.nowMs - 5400000 ≤ E.created_at)
    (hcompleted : E.status = .completed)
    (hresp : E.n8n_response = some r)
    (hpair : env.ledger.Pairwise (fun a b => a.idempotency_key ≠ b.idempotency_key)) :
    (handlerMinimal env req).resp = ⟨200, .jsonVal (some r)⟩ ∧
    (handlerMinimal env req).dsCalls = 0 := by
  have hp : minimalDupMatch req.idempotencyKey env.nowMs E = true := by
    simp [minimalDupMatch, hkeyE, hrecent]
  have hkey : ∀ e, minimalDupMatch req.idempotencyKey env.nowMs e = true →
      e.idempotency_key = req.idempotencyKey := by
    intro e he
    simp only [minimalDupMatch, decide_eq_true_eq] at he
    exact he.1
  have hnm := newestMatch_eq_of_filter_singleton _ _ _
    (filter_singleton_of_key _ req.idempotencyKey env.ledger E hpair hmem hp hkey)
  have hcond : E.status = .completed ∧ E.n8n_response ≠ none :=
    ⟨hcompleted, by simp [hresp]⟩
  constructor
  · simp [handlerMinimal, if_neg hv, hchk, hnm, hresp, hcompleted]
  · simp [handlerMinimal, if_neg hv, hchk, hnm, hresp, hcompleted]

/-- C2 (witness): replaying key `key-9` against a table holding the completed
`cachedEntry` returns the cached `"CACHED"` response with zero downstream
calls — even though the downstream would fail if called. -/
theorem C2_witness :
    (handlerMinimal ⟨[cachedEntry], 1752057010000, .fail "down", true, 99⟩
        ⟨"x", sampleSession, "key-9"⟩).resp = ⟨200, .jsonVal (some "CACHED")⟩ ∧
    (handlerMinimal ⟨[cachedEntry], 1752057010000, .fail "down", true, 99⟩
        ⟨"x", sampleSession, "key-9"⟩).dsCalls = 0 :=
  C2_theorem _ _ cachedEntry "CACHED" (by decide) rfl (by simp) rfl (by decide)
    rfl rfl (by simp)

/-- C9 (confirmed).  Whenever the downstream call succeeds (here: reached via
a fresh store), the coordinator returns the successful downstream result with
status 200 for *every* outcome of the subsequent completion update — the
result-persistence failure is logged, never surfaced. -/
theorem C9_theorem (req : Req) (behavior : Nat → DSResult) (r : String) (n : Nat)
    (nowMs : Nat) (requestId : String) (newId : Nat) (completeOk failOk : Bool)
    (hc : ¬ jsTrim req.content = "") (hs : ¬ req.sessionId = "")
    (hk : ¬ req.idempotencyKey = "")
    (hx : executeN8NRequest behavior 0 = .ok (r, n)) :
    (handlerLayered ⟨[], [], nowMs, behavior, completeOk, failOk, requestId, newId⟩
        req).resp = ⟨200, .jsonVal (some r)⟩ := by
  have hval : ¬ (jsTrim req.content = "" ∨ req.sessionId = "" ∨ req.idempotencyKey = "") := by
    simp [hc, hs, hk]
  simp only [handlerLayered, handlerLayeredBody, if_neg hval]
  simp [acquire_session_lock, layeredAfterLock, check_recent_duplicate_request,
    newestMatch, layeredDupPhase, layeredInsertPhase, insertClaim, mkClaimEntry,
    release_session_lock, hx]
  split <;> rfl

/-- C9 (witness): with a failing completion update (`completeUpdateOk =
false`) the caller still receives the successful `"R"` response. -/
theorem C9_witness :
    (handlerLayered ⟨[], [], 1752057010000, fun _ => .ok "R", false, true,
        "aaaa1111", 1⟩ ⟨"hello", sampleSession, "key-A"⟩).resp =
      ⟨200, .jsonVal (some "R")⟩ :=
  C9_theorem ⟨"hello", sampleSession, "key-A"⟩ (fun _ => .ok "R") "R" 1
    1752057010000 "aaaa1111" 1 false true (by decide) (by decide) (by decide) (by decide)

/-- C10 (counterexample).  A run in which the coordinator acquires the lease,
completes normally (200 response) and invokes release on exit — yet the lease
row it acquired is still present and unexpired in `session_locks` when the
handler terminates, because `release_session_lock` always raises SQLSTATE
42702 (see C6): the handler does terminate while still holding its lease. -/
theorem C10_counterexample :
    outA.resp.status = 200 ∧ outA.lockAcquired = true ∧
    outA.releaseInvoked = true ∧
    outA.locks.any (fun l => decide (l.locked_by = "aaaa1111" ∧
      1752057010000 < l.expires_at)) = true := by
  decide

/-- C10 (amended).  What the handler's `finally` block does guarantee: on
*every* exit path of a run that acquired the lease (cached-result
short-circuits, 409s, downstream failure, thrown errors included), the
handler invokes `release_session_lock` before terminating — though the
invoked release itself fails at the database layer, so the lease row
persists until its TTL expires. -/
theorem C10_amended_theorem (env : Env) (req : Req) (hrid : env.requestId ≠ "")
    (hacq : (handlerLayered env req).lockAcquired = true) :
    (handlerLayered env req).releaseInvoked = true := by
  by_cases hc : (handlerLayeredBody env req).lockAcquired = true ∧ env.requestId ≠ ""
  · simp only [handlerLayered, release_session_lock, if_pos hc]
  · simp only [handlerLayered, release_session_lock, if_neg hc] at hacq
    exact absurd ⟨hacq, hrid⟩ hc

/-- C10 (witness for the amended theorem): the concrete acquiring run `outA`
does invoke release on termination. -/
theorem C10_amended_witness :
    envA.requestId ≠ "" ∧ (handlerLayered envA reqA).releaseInvoked = true :=
  ⟨by decide, C10_amended_theorem envA reqA (by decide) (by decide)⟩
